import Mathlib

/-!
The banking-auth service: token validation, repository adapters and the registration service

A shallow embedding of `domain/authToken.go`, `dto/refreshRequest.go`,
`domain/authRepository.go` and `service/registrationService.go`.

Conventions used throughout.

* A Go result pair `(value, err)` is a Lean pair of `Option`s, `none` standing for `nil`.
* Where a function can dereference a nil pointer its result is wrapped in one more
  `Option`; the outer `none` is the run-time panic.
* Instants are integers on one time line; only their order matters.
* Every read of `time.Now()` is an explicit argument.
-/

/-! ## Package `errs` (library `banking-lib`) -/

namespace errs

/-- The error value handed to callers: a status code and a short message. -/
structure AppError where
  Code : Nat
  Message : String
deriving DecidableEq, Repr

/-- Modelled from the spec: `errs.NewAuthenticationError` lives in the library `banking-lib`,
not in this repository; section 7 of the specification gives the authentication kind
status 401. -/
def NewAuthenticationError (message : String) : AppError := ⟨401, message⟩

/-- Modelled from the spec: `errs.NewAuthorizationError` (library `banking-lib`); section 7
gives the authorization kind status 403. -/
def NewAuthorizationError (message : String) : AppError := ⟨403, message⟩

/-- Modelled from the spec: `errs.NewUnexpectedError` (library `banking-lib`); section 7
gives the unexpected kind status 500. -/
def NewUnexpectedError (message : String) : AppError := ⟨500, message⟩

/-- The texts of the library constructors that take no argument. Their wording is fixed
inside `banking-lib` and is not visible from this repository, so it is a parameter. -/
structure Messages where
  InvalidAccessToken : String
  ExpiredAccessToken : String
  RefreshToken : String

/-- Modelled from the spec: `errs.NewAuthenticationErrorDueToInvalidAccessToken` (library
`banking-lib`), an authentication error with the library's fixed text. -/
def NewAuthenticationErrorDueToInvalidAccessToken (m : Messages) : AppError :=
  NewAuthenticationError m.InvalidAccessToken

/-- Modelled from the spec: `errs.NewAuthenticationErrorDueToExpiredAccessToken` (library
`banking-lib`), an authentication error with the library's fixed text. -/
def NewAuthenticationErrorDueToExpiredAccessToken (m : Messages) : AppError :=
  NewAuthenticationError m.ExpiredAccessToken

/-- Modelled from the spec: `errs.NewAuthenticationErrorDueToRefreshToken` (library
`banking-lib`), an authentication error with the library's fixed text. -/
def NewAuthenticationErrorDueToRefreshToken (m : Messages) : AppError :=
  NewAuthenticationError m.RefreshToken

/-- An error belongs to the authentication kind when its status is 401. -/
def IsAuthenticationError (e : AppError) : Prop := e.Code = 401

/-- An error belongs to the authorization kind when its status is 403. -/
def IsAuthorizationError (e : AppError) : Prop := e.Code = 403

instance (e : AppError) : Decidable (IsAuthenticationError e) := by
  unfold IsAuthenticationError; infer_instance

instance (e : AppError) : Decidable (IsAuthorizationError e) := by
  unfold IsAuthorizationError; infer_instance

end errs

/-! ## Package `jwt` (library `golang-jwt/jwt/v5`) and the claim types -/

namespace domain

/-- Modelled from the spec: `AccessTokenClaims` is declared in a file of the `domain`
package that is not among the sources; section 3 lists its content as subject/username,
role, nullable customer identifier, issued-at and expiry. The two instants are pointers
in the token library and may be absent. -/
structure AccessTokenClaims where
  Username : String
  Role : String
  CustomerId : Option String
  IssuedAt : Option Int
  ExpiresAt : Option Int
deriving DecidableEq, Repr

/-- Modelled from the spec: `RefreshTokenClaims` is declared in a file of the `domain`
package that is not among the sources; section 3 describes it as the same identity as the
access claims with a longer expiry. -/
structure RefreshTokenClaims where
  Username : String
  Role : String
  CustomerId : Option String
  ExpiresAt : Option Int
deriving DecidableEq, Repr

end domain

namespace jwt

/-- The sentinel errors of the token library that `errors.Is` can find in an error. -/
inductive Sentinel
  | ErrTokenMalformed
  | ErrTokenUnverifiable
  | ErrTokenSignatureInvalid
  | ErrTokenInvalidClaims
  | ErrTokenExpired
deriving DecidableEq, Repr

/-- An error value of the token library: its text and the sentinels it wraps. -/
structure Error where
  Text : String
  Wraps : List Sentinel
deriving DecidableEq, Repr

/-- Go's `errors.Is(err, target)` for a sentinel target. -/
def Is (err : Error) (target : Sentinel) : Bool := err.Wraps.contains target

/-- The dynamically typed `Claims` field of a token. The last alternative is any other
implementation of the interface, given by what its `GetExpirationTime` returns. -/
inductive Claims
  | access (c : domain.AccessTokenClaims)
  | refresh (c : domain.RefreshTokenClaims)
  | custom (date : Option Int) (err : Option String)
deriving DecidableEq, Repr

/-- The method `GetExpirationTime` of the `Claims` interface: `(date, err)`. -/
def Claims.GetExpirationTime : Claims → Option Int × Option String
  | .access c => (c.ExpiresAt, none)
  | .refresh c => (c.ExpiresAt, none)
  | .custom date err => (date, err)

/-- A parsed token. -/
structure Token where
  Raw : String
  Alg : String
  Claims : Claims
  Signature : String
  Valid : Bool
deriving DecidableEq, Repr

/-- The three segments of a compact token after decoding: the algorithm named in the
header, the payload decoded into the claim type asked for, the text that was signed and
the signature. -/
structure Segments (κ : Type) where
  Alg : String
  Claims : κ
  SigningInput : String
  Signature : String
deriving DecidableEq, Repr

/-- The wire format and the signature primitive of the token library, kept abstract:
how a string splits into segments, and whether a signature verifies under a method and
a key. -/
structure Codec where
  decodeAccess : String → Option (Segments domain.AccessTokenClaims)
  decodeRefresh : String → Option (Segments domain.RefreshTokenClaims)
  Verify : String → String → String → String → Bool

/-- The name of `jwt.SigningMethodHS256`. -/
def SigningMethodHS256 : String := "HS256"

/-- The signing methods the library registers; a header naming any other is unverifiable. -/
def registeredMethods : List String :=
  ["HS256", "HS384", "HS512", "RS256", "RS384", "RS512", "ES256", "ES384", "ES512",
   "PS256", "PS384", "PS512", "EdDSA", "none"]

/-- The default claim validator: the expiry claim is optional, and when present the
token is expired unless `now` is before it. -/
def Validate (claims : Claims) (now : Int) : Option Error :=
  match claims.GetExpirationTime with
  | (_, some err) => some ⟨err, [Sentinel.ErrTokenInvalidClaims]⟩
  | (none, none) => none
  | (some exp, none) =>
    if now < exp then none
    else some ⟨"token has invalid claims: token is expired",
      [Sentinel.ErrTokenInvalidClaims, Sentinel.ErrTokenExpired]⟩

/-- Modelled from the spec: `jwt.ParseWithClaims` with the option `WithValidMethods` belongs
to the library `golang-jwt/jwt/v5`, not to this repository; the steps are those of
`parseAndValidate` in section 4.1: decode, reject a header algorithm that is not expected,
verify the signature against the key, then check expiry. The token is returned next to
the error whenever the string could be decoded. -/
def ParseWithClaims {κ : Type} (decode : String → Option (Segments κ)) (wrap : κ → Claims)
    (verify : String → String → String → String → Bool)
    (tokenString : String) (key : String) (validMethods : List String) (now : Int) :
    Option Token × Option Error :=
  match decode tokenString with
  | none => (none, some ⟨"token is malformed", [Sentinel.ErrTokenMalformed]⟩)
  | some seg =>
    let token : Token :=
      { Raw := tokenString, Alg := seg.Alg, Claims := wrap seg.Claims,
        Signature := "", Valid := false }
    if !registeredMethods.contains seg.Alg then
      (some token, some ⟨"signing method (alg) is unavailable", [Sentinel.ErrTokenUnverifiable]⟩)
    else if !validMethods.contains seg.Alg then
      (some token, some ⟨"signing method is invalid", [Sentinel.ErrTokenSignatureInvalid]⟩)
    else
      let token := { token with Signature := seg.Signature }
      if !verify seg.Alg seg.SigningInput seg.Signature key then
        (some token, some ⟨"signature is invalid", [Sentinel.ErrTokenSignatureInvalid]⟩)
      else
        match Validate token.Claims now with
        | some err => (some token, some err)
        | none => (some { token with Valid := true }, none)

end jwt

/-! ## `domain/authToken.go` -/

namespace domain

open errs

/-- What the token functions read from the process: the library codec, the signing secret
`SECRET` (declared in a file that is not among the sources) and the library's texts. -/
structure TokenEnv where
  codec : jwt.Codec
  SECRET : String
  messages : errs.Messages

/-- `GetValidAccessTokenFrom(tokenString, allowExpired)`; `now` is the clock read made by
the parser. -/
def GetValidAccessTokenFrom (env : TokenEnv) (tokenString : String) (allowExpired : Bool)
    (now : Int) : Option (Option jwt.Token × Option AppError) :=
  match jwt.ParseWithClaims env.codec.decodeAccess jwt.Claims.access env.codec.Verify
      tokenString env.SECRET [jwt.SigningMethodHS256] now with
  | (token, err) =>
    let early : Option AppError :=
      match err with
      | some err =>
        if !jwt.Is err jwt.Sentinel.ErrTokenExpired then
          some (NewAuthenticationErrorDueToInvalidAccessToken env.messages)
        else if !allowExpired then
          some (NewAuthenticationErrorDueToExpiredAccessToken env.messages)
        else none
      | none => none
    match early with
    | some appErr => some (none, some appErr)
    | none =>
      match token with
      | none => none
      | some token =>
        match token.Claims with
        | .access _ => some (some token, none)
        | _ => some (none, some (NewUnexpectedError "Unexpected authorization error"))

/-- `GetValidRefreshTokenFrom(tokenString, allowExpired)`; `now` is the clock read made
by the parser. -/
def GetValidRefreshTokenFrom (env : TokenEnv) (tokenString : String) (allowExpired : Bool)
    (now : Int) : Option (Option jwt.Token × Option AppError) :=
  match jwt.ParseWithClaims env.codec.decodeRefresh jwt.Claims.refresh env.codec.Verify
      tokenString env.SECRET [jwt.SigningMethodHS256] now with
  | (token, err) =>
    let early : Option AppError :=
      match err with
      | some err =>
        if !jwt.Is err jwt.Sentinel.ErrTokenExpired || !allowExpired then
          some (NewAuthenticationErrorDueToRefreshToken env.messages)
        else none
      | none => none
    match early with
    | some appErr => some (none, some appErr)
    | none =>
      match token with
      | none => none
      | some token =>
        match token.Claims with
        | .refresh _ => some (some token, none)
        | _ => some (none, some (NewUnexpectedError "Unexpected authorization error"))

/-- `IsExpired(token)`; `now` is the value of `time.Now()`. The outer `none` is the
dereference of a nil expiry date. -/
def IsExpired (token : jwt.Token) (now : Int) : Option (Bool × Option AppError) :=
  match token.Claims.GetExpirationTime with
  | (_, some err) => some (false, some (NewUnexpectedError err))
  | (none, none) => none
  | (some date, none) =>
    if !decide (date > now) then some (true, none)
    else some (false, none)

end domain

/-! ## `dto/refreshRequest.go` -/

namespace dto

open errs

/-- The body of a refresh request. -/
structure RefreshRequest where
  AccessToken : String
  RefreshToken : String
deriving DecidableEq, Repr

/-- The unexported `isExpired(token)` of package `dto`; `now` is the value of `time.Now()`.
The outer `none` is the dereference of a nil expiry date. -/
def isExpired (token : jwt.Token) (now : Int) : Option (Bool × Option AppError) :=
  match token.Claims.GetExpirationTime with
  | (_, some err) => some (false, some (NewUnexpectedError err))
  | (none, none) => none
  | (some date, none) =>
    if !decide (date > now) then some (true, none)
    else some (false, none)

/-- `RefreshRequest.ValidateAccessToken()`. The clock is read twice: `nowParse` inside the
parser and `nowCheck` afterwards inside `isExpired`. -/
def RefreshRequest.ValidateAccessToken (env : domain.TokenEnv) (r : RefreshRequest)
    (nowParse nowCheck : Int) : Option (Option jwt.Token × Option AppError) :=
  match domain.GetValidAccessTokenFrom env r.AccessToken true nowParse with
  | none => none
  | some (_, some appErr) => some (none, some appErr)
  | some (none, none) => none
  | some (some validatedAccessToken, none) =>
    match isExpired validatedAccessToken nowCheck with
    | none => none
    | some (_, some appErr) => some (none, some appErr)
    | some (isAccessTokenExpired, none) =>
      if !isAccessTokenExpired then
        some (none, some (NewAuthenticationError
          "Cannot generate new access token until current one expires"))
      else some (some validatedAccessToken, none)

end dto

/-! ## `domain/authRepository.go` -/

namespace domain

open errs

/-- Modelled from the spec: the credential record `Auth` is declared in a file of the
`domain` package that is not among the sources; section 3 lists username, hashed password,
role and an optional customer identifier, which are also the columns `Authenticate`
selects. -/
structure Auth where
  Username : String
  HashedPassword : String
  Role : String
  CustomerId : Option String
deriving DecidableEq, Repr

/-- A row of the table `accounts`, with the two columns the adapter queries. -/
structure Account where
  customer_id : String
  account_id : String
deriving DecidableEq, Repr

/-- The adapter `AuthRepositoryDb` together with the database its client is connected to:
the three tables the adapter touches, and two switches for the failures the code
distinguishes: a statement failing in the driver, and a driver that cannot report the
number of affected rows. -/
structure AuthRepositoryDb where
  users : List Auth
  refresh_token_store : List String
  accounts : List Account
  failing : Bool
  rowsAffectedFailing : Bool
deriving DecidableEq, Repr

/-- The two kinds of error a query returns that the adapter tells apart. -/
inductive SqlError
  | ErrNoRows
  | driver
deriving DecidableEq, Repr

/-- The client's `Get` into a single destination: the first row of the result set, or
`sql.ErrNoRows` when the set is empty. -/
def AuthRepositoryDb.Get {α : Type} (d : AuthRepositoryDb) (rows : List α) : Except SqlError α :=
  if d.failing then .error SqlError.driver
  else
    match rows with
    | [] => .error SqlError.ErrNoRows
    | row :: _ => .ok row

/-- The client's `Get` of a `SELECT EXISTS(...)`: always one row, holding whether the inner
query has any. -/
def AuthRepositoryDb.GetExists {α : Type} (d : AuthRepositoryDb) (rows : List α) :
    Except SqlError Bool :=
  d.Get [!rows.isEmpty]

/-- The statement `DELETE FROM refresh_token_store WHERE refresh_token = ?` on a working
connection: the number of rows it removes and the database afterwards. -/
def AuthRepositoryDb.deleteRows (d : AuthRepositoryDb) (token : String) :
    Nat × AuthRepositoryDb :=
  (d.refresh_token_store.count token,
   { d with refresh_token_store := d.refresh_token_store.filter (fun t => t != token) })

/-- The client's `Exec` of the delete statement: `(result, err)` and the database
afterwards; the result is what `RowsAffected()` will return. -/
def AuthRepositoryDb.ExecDelete (d : AuthRepositoryDb) (token : String) :
    Except SqlError (Except SqlError Nat) × AuthRepositoryDb :=
  if d.failing then (.error SqlError.driver, d)
  else
    let r := d.deleteRows token
    (.ok (if d.rowsAffectedFailing then .error SqlError.driver else .ok r.1), r.2)

/-- `AuthRepositoryDb.Authenticate(un, pw)`. The password check `IsHashGivenPassword` is
declared in a file that is not among the sources and is taken as a capability. -/
def AuthRepositoryDb.Authenticate (d : AuthRepositoryDb)
    (IsHashGivenPassword : String → String → Bool) (un pw : String) :
    Option Auth × Option AppError :=
  match d.Get (d.users.filter (fun u => u.Username == un)) with
  | .error err =>
    if err = SqlError.ErrNoRows then
      (none, some (NewAuthenticationError "Incorrect username or password"))
    else (none, some (NewUnexpectedError "Unexpected database error"))
  | .ok auth =>
    if !IsHashGivenPassword auth.HashedPassword pw then
      (none, some (NewAuthenticationError "Incorrect username or password"))
    else (some auth, none)

/-- `AuthRepositoryDb.DeleteRefreshTokenFromStore(token)`: the error returned and the
database afterwards. -/
def AuthRepositoryDb.DeleteRefreshTokenFromStore (d : AuthRepositoryDb) (token : String) :
    Option AppError × AuthRepositoryDb :=
  match d.ExecDelete token with
  | (.error _, d1) => (some (NewUnexpectedError "Unexpected database error"), d1)
  | (.ok result, d1) =>
    match result with
    | .error _ => (some (NewUnexpectedError "Unexpected database error"), d1)
    | .ok rowsDeleted =>
      if rowsDeleted != 1 then (some (NewUnexpectedError "Failed to log out"), d1)
      else (none, d1)

/-- The `WHERE` clause of the two queries of `FindUser`: with an empty `cid` the row must
have a null customer id, otherwise it must have exactly that customer id. -/
def userMatches (un role cid : String) (u : Auth) : Bool :=
  if cid == "" then u.Username == un && u.Role == role && u.CustomerId == none
  else u.Username == un && u.Role == role && u.CustomerId == some cid

/-- `AuthRepositoryDb.FindUser(un, role, cid)`. -/
def AuthRepositoryDb.FindUser (d : AuthRepositoryDb) (un role cid : String) : Option AppError :=
  match d.GetExists (d.users.filter (userMatches un role cid)) with
  | .error _ => some (NewUnexpectedError "Unexpected database error")
  | .ok isExists =>
    if !isExists then some (NewAuthenticationError "Cannot continue")
    else none

/-- `AuthRepositoryDb.IsAccountUnderCustomer(aid, cid)`. -/
def AuthRepositoryDb.IsAccountUnderCustomer (d : AuthRepositoryDb) (aid cid : String) :
    Option AppError :=
  match d.Get ((d.accounts.filter
      (fun a => a.customer_id == cid && a.account_id == aid)).map (fun _ => (1 : Int))) with
  | .error err =>
    if err = SqlError.ErrNoRows then
      some (NewAuthorizationError "Account does not belong to customer")
    else some (NewUnexpectedError "Unexpected database error")
  | .ok _ => none

end domain

/-! ## `dto/registrationRequest.go` and the registration entity -/

namespace dto

/-- The body of a registration request. -/
structure RegistrationRequest where
  Name : String
  Country : String
  Zipcode : String
  DateOfBirth : String
  Email : String
  Username : String
  Password : String
deriving DecidableEq, Repr

end dto

namespace domain

/-- Modelled from the spec: the entity `Registration` is declared in a file of the `domain`
package that is not among the sources; section 3 lists name, country, zip, date of birth,
email, username, password hash, the three lifecycle timestamps and, once finalized, the
assigned customer identifier. -/
structure Registration where
  Name : String
  Country : String
  Zipcode : String
  DateOfBirth : String
  Email : String
  Username : String
  HashedPassword : String
  CreatedAt : String
  LastEmailedAt : Option String
  ConfirmedAt : Option String
  CustomerId : Option String
deriving DecidableEq, Repr

/-- Modelled from the spec: `Registration.Confirm` is declared in a file that is not among
the sources; section 4.4 describes it as the transition to `confirmed` with the customer
identifier and the timestamp it is given. -/
def Registration.Confirm (r : Registration) (customerId createTime : String) : Registration :=
  { r with CustomerId := some customerId, ConfirmedAt := some createTime }

/-- Modelled from the spec: the claims of a one-time token are declared in a file that is
not among the sources; section 3 lists the email address, issued-at and a short expiry. -/
structure OneTimeTokenClaims where
  Email : String
  IssuedAt : Option Int
  ExpiresAt : Option Int
deriving DecidableEq, Repr

/-- The secondary port `RegistrationRepository`, with the seven operations the service
calls. The interface is declared in a file that is not among the sources; an
implementation is any behaviour over a store of type `σ`: each operation returns its
result and the store afterwards. Where Go returns `(value, err)` the result is a value or
an error. -/
structure RegistrationRepository (σ : Type) where
  IsEmailUsed : String → σ → Option errs.AppError × σ
  IsUsernameTaken : String → σ → Option errs.AppError × σ
  Save : Registration → σ → Option errs.AppError × σ
  UpdateLastEmailedInfo : Registration → String → σ → Option errs.AppError × σ
  FindFromEmail : String → σ → Except errs.AppError Registration × σ
  CreateNecessaryAccounts : Registration → String → σ → Except errs.AppError String × σ
  Update : Registration → σ → Option errs.AppError × σ

/-- The secondary port `EmailRepository`: sending a confirmation email returns the time of
the send, or an error, and the store afterwards. -/
structure EmailRepository (σ : Type) where
  SendConfirmationEmail : String → String → σ → Except errs.AppError String × σ

/-- The functions of the packages `domain` and `dto` and of the standard library that the
service calls and that are not among the sources, taken as capabilities; `ρ` is the type
`dto.RegistrationResponse`. -/
structure Externals (ρ : Type) where
  NewRegistration : dto.RegistrationRequest → Registration
  ToDTO : Registration → ρ
  GenerateOneTimeToken : Registration → Except errs.AppError String
  ValidateOneTimeToken : String → Bool → Except errs.AppError OneTimeTokenClaims
  Getenv : String → String
  QueryEscape : String → String

end domain

/-! ## `service/registrationService.go` -/

namespace service

open errs domain

/-- The business object: its two ports. -/
structure DefaultRegistrationService (σ : Type) where
  registrationRepo : RegistrationRepository σ
  emailRepo : EmailRepository σ

/-- `buildConfirmationURL(ott)`: scheme `http`, host `addr:port` read from the process
environment, path `register/check` and the single query parameter `ott`. -/
def buildConfirmationURL {ρ : Type} (x : Externals ρ) (ott : String) : String :=
  let addr := x.Getenv "FRONTEND_SERVER_ADDRESS"
  let port := x.Getenv "FRONTEND_SERVER_PORT"
  "http://" ++ addr ++ ":" ++ port ++ "/" ++ "register/check" ++ "?" ++
    ("ott=" ++ x.QueryEscape ott)

/-- The unexported `createAndSendLink(reg)`: the error returned and the store afterwards. -/
def DefaultRegistrationService.createAndSendLink {σ ρ : Type} (x : Externals ρ)
    (s : DefaultRegistrationService σ) (reg : Registration) (w : σ) :
    Option AppError × σ :=
  match x.GenerateOneTimeToken reg with
  | .error err => (some err, w)
  | .ok ott =>
    let link := buildConfirmationURL x ott
    match s.emailRepo.SendConfirmationEmail reg.Email link w with
    | (.error err, w1) => (some err, w1)
    | (.ok timeEmailed, w1) =>
      match s.registrationRepo.UpdateLastEmailedInfo reg timeEmailed w1 with
      | (some err, w2) => (some err, w2)
      | (none, w2) => (none, w2)

/-- `DefaultRegistrationService.Register(request)`: the pair `(response, err)` and the store
afterwards. -/
def DefaultRegistrationService.Register {σ ρ : Type} (x : Externals ρ)
    (s : DefaultRegistrationService σ) (request : dto.RegistrationRequest) (w : σ) :
    (Option ρ × Option AppError) × σ :=
  let registration := x.NewRegistration request
  match s.registrationRepo.IsEmailUsed registration.Email w with
  | (some appErr, w1) => ((none, some appErr), w1)
  | (none, w1) =>
    match s.registrationRepo.IsUsernameTaken registration.Username w1 with
    | (some appErr, w2) => ((none, some appErr), w2)
    | (none, w2) =>
      match s.registrationRepo.Save registration w2 with
      | (some err, w3) => ((none, some err), w3)
      | (none, w3) =>
        match s.createAndSendLink x registration w3 with
        | (some err, w4) => ((none, some err), w4)
        | (none, w4) => ((some (x.ToDTO registration), none), w4)

/-- `DefaultRegistrationService.FinishRegistration(tokenString)`: the error returned and the
store afterwards; `createTime` is the formatted value of `time.Now()`. -/
def DefaultRegistrationService.FinishRegistration {σ ρ : Type} (x : Externals ρ)
    (s : DefaultRegistrationService σ) (tokenString : String) (createTime : String) (w : σ) :
    Option AppError × σ :=
  match x.ValidateOneTimeToken tokenString false with
  | .error err => (some err, w)
  | .ok claims =>
    match s.registrationRepo.FindFromEmail claims.Email w with
    | (.error err, w1) => (some err, w1)
    | (.ok registration, w1) =>
      match s.registrationRepo.CreateNecessaryAccounts registration createTime w1 with
      | (.error err, w2) => (some err, w2)
      | (.ok customerId, w2) =>
        let completedRegistration := registration.Confirm customerId createTime
        match s.registrationRepo.Update completedRegistration w2 with
        | (some err, w3) => (some err, w3)
        | (none, w3) => (none, w3)

end service

/-! ## Concrete instances

Small executable instances of the abstract parts, on which the results below are
evaluated. -/

namespace sample

open errs domain

/-- Access claims of user `alice` expiring at instant 100. -/
def aliceClaims : AccessTokenClaims :=
  { Username := "alice", Role := "user", CustomerId := some "2000",
    IssuedAt := some 40, ExpiresAt := some 100 }

/-- Refresh claims of user `alice` expiring at instant 1000. -/
def aliceRefreshClaims : RefreshTokenClaims :=
  { Username := "alice", Role := "user", CustomerId := some "2000", ExpiresAt := some 1000 }

/-- A toy wire format with three known access strings and two refresh strings, and a toy
signature: the key followed by the signed text. -/
def codec : jwt.Codec where
  decodeAccess s :=
    if s = "hs256.alice.good" then some ⟨"HS256", aliceClaims, "hs256.alice", "k1|hs256.alice"⟩
    else if s = "none.alice." then some ⟨"none", aliceClaims, "none.alice", ""⟩
    else none
  decodeRefresh s :=
    if s = "rs256.alice.sig" then some ⟨"RS256", aliceRefreshClaims, "rs256.alice", "sig"⟩
    else none
  Verify alg input signature key :=
    if alg = "none" then true else signature == key ++ "|" ++ input

/-- A process whose secret is `k1`. -/
def env : TokenEnv :=
  { codec := codec, SECRET := "k1",
    messages := { InvalidAccessToken := "invalid access token",
                  ExpiredAccessToken := "expired access token",
                  RefreshToken := "invalid refresh token" } }

/-- A database with two users, one stored refresh token and one account. -/
def db : AuthRepositoryDb :=
  { users := [⟨"alice", "h(pw1)", "user", some "2000"⟩, ⟨"root", "h(pw0)", "admin", none⟩],
    refresh_token_store := ["r1"],
    accounts := [⟨"2000", "95470"⟩],
    failing := false, rowsAffectedFailing := false }

/-- A toy password check: the stored hash is `h(` password `)`. -/
def IsHashGivenPassword (hashed pw : String) : Bool := hashed == "h(" ++ pw ++ ")"

/-- An in-memory store behind both ports: the registrations, the usernames of the user
accounts, the customer ids provisioned so far, the emails sent, and the names of the
operations that ran on it, oldest first. -/
structure Store where
  registrations : List Registration
  users : List String
  customers : List String
  outbox : List (String × String)
  calls : List String
deriving DecidableEq, Repr

/-- Which operations of the in-memory ports fail. -/
structure Faults where
  send : Bool
  update : Bool
deriving DecidableEq, Repr

/-- Appends the name of an operation to the record of the store. -/
def Store.ran (st : Store) (name : String) : Store :=
  { st with calls := st.calls ++ [name] }

/-- An in-memory registration repository. The two checks only read; saving appends;
provisioning creates one customer and one user; updating replaces the record with the
same email, unless it is made to fail. -/
def registrationRepo (f : Faults) : RegistrationRepository Store where
  IsEmailUsed email st :=
    (if st.registrations.any (fun (r : Registration) => r.Email == email)
      then some ⟨409, "Email is already used"⟩ else none,
     st.ran "IsEmailUsed")
  IsUsernameTaken username st :=
    (if st.users.contains username then some ⟨409, "Username is already taken"⟩ else none,
     st.ran "IsUsernameTaken")
  Save reg st :=
    (none, Store.ran { st with registrations := st.registrations ++ [reg] } "Save")
  UpdateLastEmailedInfo reg timeEmailed st :=
    (none,
     Store.ran { st with registrations := st.registrations.map (fun (r : Registration) =>
         if r.Email == reg.Email then { r with LastEmailedAt := some timeEmailed } else r) }
       "UpdateLastEmailedInfo")
  FindFromEmail email st :=
    (match st.registrations.find? (fun (r : Registration) => r.Email == email) with
      | some r => .ok r
      | none => .error (NewAuthenticationError "Registration not found"),
     st.ran "FindFromEmail")
  CreateNecessaryAccounts reg _ st :=
    (.ok ("c-" ++ reg.Username),
     Store.ran { st with customers := st.customers ++ ["c-" ++ reg.Username],
                         users := st.users ++ [reg.Username] } "CreateNecessaryAccounts")
  Update reg st :=
    if f.update then (some (NewUnexpectedError "Unexpected database error"), st.ran "Update")
    else
      (none,
       Store.ran { st with registrations := st.registrations.map (fun (r : Registration) =>
           if r.Email == reg.Email then reg else r) } "Update")

/-- An in-memory email sender: it records the email and returns a fixed time, unless it is
made to fail. -/
def emailRepo (f : Faults) : EmailRepository Store where
  SendConfirmationEmail email link st :=
    if f.send then
      (.error (NewUnexpectedError "Unexpected email error"), st.ran "SendConfirmationEmail")
    else
      (.ok "2024-01-01 10:00:00",
       Store.ran { st with outbox := st.outbox ++ [(email, link)] } "SendConfirmationEmail")

/-- The service over the in-memory ports. -/
def svc (f : Faults) : service.DefaultRegistrationService Store :=
  { registrationRepo := registrationRepo f, emailRepo := emailRepo f }

/-- Toy versions of the functions that are not among the sources: the response is the
registration itself, the one-time token of an email is `ott-` followed by the email, and
only the token of `a@x.com` validates. -/
def externals : Externals Registration where
  NewRegistration request :=
    { Name := request.Name, Country := request.Country, Zipcode := request.Zipcode,
      DateOfBirth := request.DateOfBirth, Email := request.Email,
      Username := request.Username, HashedPassword := "h(" ++ request.Password ++ ")",
      CreatedAt := "2024-01-01 09:59:59", LastEmailedAt := none, ConfirmedAt := none,
      CustomerId := none }
  ToDTO reg := reg
  GenerateOneTimeToken reg := .ok ("ott-" ++ reg.Email)
  ValidateOneTimeToken tokenString _ :=
    if tokenString = "ott-a@x.com" then .ok ⟨"a@x.com", none, none⟩
    else .error (NewAuthenticationError "Invalid token")
  Getenv key := if key = "FRONTEND_SERVER_ADDRESS" then "localhost" else "3000"
  QueryEscape text := text

/-- The registration request of `alice`. -/
def aliceRequest : dto.RegistrationRequest :=
  { Name := "Alice", Country := "SG", Zipcode := "100000", DateOfBirth := "2000-01-01",
    Email := "a@x.com", Username := "alice", Password := "pw1" }

/-- The empty store. -/
def emptyStore : Store :=
  { registrations := [], users := [], customers := [], outbox := [], calls := [] }

/-- A store that already holds the registration of `alice`, emailed and not confirmed. -/
def pendingStore : Store :=
  { registrations := [{ externals.NewRegistration aliceRequest with
      LastEmailedAt := some "2024-01-01 10:00:00" }],
    users := [], customers := [], outbox := [], calls := [] }

/-- A store in which the username `alice` already belongs to a user account. -/
def takenStore : Store :=
  { registrations := [], users := ["alice"], customers := [], outbox := [], calls := [] }

/-- The store after the two checks and `Save` ran for the request of `alice` on the empty
store. -/
def savedStore : Store :=
  { registrations := [externals.NewRegistration aliceRequest], users := [], customers := [],
    outbox := [], calls := ["IsEmailUsed", "IsUsernameTaken", "Save"] }

end sample

/-! ## Results -/

section tokens

open errs domain

/-- What the parser returns for a string that decodes, names HS256 and carries a signature
that verifies under the key: the token, not yet valid, next to the expiry error when the
expiry instant has passed, otherwise the valid token and no error. -/
theorem jwt.ParseWithClaims_signed {κ : Type} (decode : String → Option (jwt.Segments κ))
    (wrap : κ → jwt.Claims) (verify : String → String → String → String → Bool)
    (tokenString key : String) (now : Int) (seg : jwt.Segments κ)
    (hdec : decode tokenString = some seg) (halg : seg.Alg = jwt.SigningMethodHS256)
    (hsig : verify jwt.SigningMethodHS256 seg.SigningInput seg.Signature key = true) :
    jwt.ParseWithClaims decode wrap verify tokenString key [jwt.SigningMethodHS256] now
      = match jwt.Validate (wrap seg.Claims) now with
        | some err =>
          (some ⟨tokenString, jwt.SigningMethodHS256, wrap seg.Claims, seg.Signature, false⟩,
            some err)
        | none =>
          (some ⟨tokenString, jwt.SigningMethodHS256, wrap seg.Claims, seg.Signature, true⟩,
            none) := by
  unfold jwt.ParseWithClaims
  simp only [hdec, halg, hsig]
  have h1 : jwt.registeredMethods.contains jwt.SigningMethodHS256 = true := by decide
  have h2 : [jwt.SigningMethodHS256].contains jwt.SigningMethodHS256 = true := by decide
  simp only [h1, h2]
  cases jwt.Validate (wrap seg.Claims) now <;> rfl

/-- What the parser returns for a string that decodes and names an algorithm other than
HS256: an error that does not wrap the expiry sentinel. -/
theorem jwt.ParseWithClaims_other_alg {κ : Type} (decode : String → Option (jwt.Segments κ))
    (wrap : κ → jwt.Claims) (verify : String → String → String → String → Bool)
    (tokenString key : String) (now : Int) (seg : jwt.Segments κ)
    (hdec : decode tokenString = some seg) (halg : seg.Alg ≠ jwt.SigningMethodHS256) :
    ∃ token err,
      jwt.ParseWithClaims decode wrap verify tokenString key [jwt.SigningMethodHS256] now
        = (token, some err) ∧ jwt.Is err jwt.Sentinel.ErrTokenExpired = false := by
  unfold jwt.ParseWithClaims
  simp only [hdec]
  by_cases hreg : jwt.registeredMethods.contains seg.Alg = true
  · have hv : [jwt.SigningMethodHS256].contains seg.Alg = false := by
      simpa using halg
    simp only [hreg, hv]
    exact ⟨_, _, rfl, by decide⟩
  · simp only [hreg]
    exact ⟨_, _, rfl, by decide⟩

/-- C1. An access token string that decodes, names HS256, verifies under the process secret
and whose expiry instant is at or before the parser's clock read is rejected with the
expired-access-token authentication error when `allowExpired` is false, and is returned
without error, carrying exactly the decoded claims, when `allowExpired` is true. -/
theorem expired_access_token_policy (env : TokenEnv) (tokenString : String) (now : Int)
    (seg : jwt.Segments AccessTokenClaims) (exp : Int)
    (hdec : env.codec.decodeAccess tokenString = some seg)
    (halg : seg.Alg = jwt.SigningMethodHS256)
    (hsig : env.codec.Verify jwt.SigningMethodHS256 seg.SigningInput seg.Signature
      env.SECRET = true)
    (hexp : seg.Claims.ExpiresAt = some exp) (hpast : exp ≤ now) :
    (GetValidAccessTokenFrom env tokenString false now
        = some (none, some (NewAuthenticationErrorDueToExpiredAccessToken env.messages))
      ∧ IsAuthenticationError (NewAuthenticationErrorDueToExpiredAccessToken env.messages))
    ∧ ∃ token, GetValidAccessTokenFrom env tokenString true now = some (some token, none)
        ∧ token.Claims = jwt.Claims.access seg.Claims := by
  have hp := jwt.ParseWithClaims_signed env.codec.decodeAccess jwt.Claims.access
    env.codec.Verify tokenString env.SECRET now seg hdec halg hsig
  have hv : jwt.Validate (jwt.Claims.access seg.Claims) now
      = some ⟨"token has invalid claims: token is expired",
          [jwt.Sentinel.ErrTokenInvalidClaims, jwt.Sentinel.ErrTokenExpired]⟩ := by
    simp [jwt.Validate, jwt.Claims.GetExpirationTime, hexp, not_lt.mpr hpast]
  rw [hv] at hp
  refine ⟨⟨?_, rfl⟩, ?_⟩
  · unfold GetValidAccessTokenFrom
    rw [hp]
    rfl
  · refine ⟨⟨tokenString, jwt.SigningMethodHS256, jwt.Claims.access seg.Claims,
      seg.Signature, false⟩, ?_, rfl⟩
    unfold GetValidAccessTokenFrom
    rw [hp]
    rfl

/-- The policy of C1 on the sample token, read at its expiry instant. -/
theorem expired_access_token_policy_witness :
    (GetValidAccessTokenFrom sample.env "hs256.alice.good" false 100
        = some (none, some (NewAuthenticationErrorDueToExpiredAccessToken sample.env.messages))
      ∧ IsAuthenticationError
          (NewAuthenticationErrorDueToExpiredAccessToken sample.env.messages))
    ∧ ∃ token, GetValidAccessTokenFrom sample.env "hs256.alice.good" true 100
          = some (some token, none)
        ∧ token.Claims = jwt.Claims.access sample.aliceClaims :=
  expired_access_token_policy sample.env "hs256.alice.good" 100
    ⟨"HS256", sample.aliceClaims, "hs256.alice", "k1|hs256.alice"⟩ 100
    (by decide) (by decide) (by decide) (by decide) (by decide)

/-- C2. A token string whose header names an algorithm other than HS256 is rejected by both
validation functions, for either value of `allowExpired`: no token is returned, and the
error is the invalid-access-token, respectively the refresh-token, authentication error.
A string that does not decode at all is rejected in the same way. -/
theorem other_algorithm_rejected (env : TokenEnv) (tokenString : String)
    (allowExpired : Bool) (now : Int) :
    (∀ seg, env.codec.decodeAccess tokenString = some seg → seg.Alg ≠ jwt.SigningMethodHS256 →
      GetValidAccessTokenFrom env tokenString allowExpired now
          = some (none, some (NewAuthenticationErrorDueToInvalidAccessToken env.messages))
        ∧ IsAuthenticationError (NewAuthenticationErrorDueToInvalidAccessToken env.messages))
    ∧ (∀ seg, env.codec.decodeRefresh tokenString = some seg →
        seg.Alg ≠ jwt.SigningMethodHS256 →
      GetValidRefreshTokenFrom env tokenString allowExpired now
          = some (none, some (NewAuthenticationErrorDueToRefreshToken env.messages))
        ∧ IsAuthenticationError (NewAuthenticationErrorDueToRefreshToken env.messages))
    ∧ (env.codec.decodeAccess tokenString = none →
      GetValidAccessTokenFrom env tokenString allowExpired now
        = some (none, some (NewAuthenticationErrorDueToInvalidAccessToken env.messages)))
    ∧ (env.codec.decodeRefresh tokenString = none →
      GetValidRefreshTokenFrom env tokenString allowExpired now
        = some (none, some (NewAuthenticationErrorDueToRefreshToken env.messages))) := by
  refine ⟨?_, ?_, ?_, ?_⟩
  · intro seg hdec halg
    obtain ⟨token, err, hp, hnot⟩ := jwt.ParseWithClaims_other_alg env.codec.decodeAccess
      jwt.Claims.access env.codec.Verify tokenString env.SECRET now seg hdec halg
    refine ⟨?_, rfl⟩
    unfold GetValidAccessTokenFrom
    rw [hp]
    simp [hnot]
  · intro seg hdec halg
    obtain ⟨token, err, hp, hnot⟩ := jwt.ParseWithClaims_other_alg env.codec.decodeRefresh
      jwt.Claims.refresh env.codec.Verify tokenString env.SECRET now seg hdec halg
    refine ⟨?_, rfl⟩
    unfold GetValidRefreshTokenFrom
    rw [hp]
    simp [hnot]
  · intro hdec
    simp [GetValidAccessTokenFrom, jwt.ParseWithClaims, hdec, jwt.Is]
  · intro hdec
    simp [GetValidRefreshTokenFrom, jwt.ParseWithClaims, hdec, jwt.Is]

/-- The rejection of C2 on a sample access string naming `none` and a sample refresh string
naming RS256, with the expiry bypass switched on. -/
theorem other_algorithm_rejected_witness :
    (GetValidAccessTokenFrom sample.env "none.alice." true 100
        = some (none, some (NewAuthenticationErrorDueToInvalidAccessToken sample.env.messages))
      ∧ IsAuthenticationError
          (NewAuthenticationErrorDueToInvalidAccessToken sample.env.messages))
    ∧ (GetValidRefreshTokenFrom sample.env "rs256.alice.sig" true 100
        = some (none, some (NewAuthenticationErrorDueToRefreshToken sample.env.messages))
      ∧ IsAuthenticationError (NewAuthenticationErrorDueToRefreshToken sample.env.messages)) :=
  ⟨(other_algorithm_rejected sample.env "none.alice." true 100).1
      ⟨"none", sample.aliceClaims, "none.alice", ""⟩ (by decide) (by decide),
   (other_algorithm_rejected sample.env "rs256.alice.sig" true 100).2.1
      ⟨"RS256", sample.aliceRefreshClaims, "rs256.alice", "sig"⟩ (by decide) (by decide)⟩

/-- With the expiry bypass on, a string that decodes, names HS256 and verifies under the
secret is returned as a token carrying the decoded claims, whatever the clock says. -/
theorem GetValidAccessTokenFrom_allowExpired (env : TokenEnv) (tokenString : String)
    (now : Int) (seg : jwt.Segments AccessTokenClaims)
    (hdec : env.codec.decodeAccess tokenString = some seg)
    (halg : seg.Alg = jwt.SigningMethodHS256)
    (hsig : env.codec.Verify jwt.SigningMethodHS256 seg.SigningInput seg.Signature
      env.SECRET = true) :
    ∃ token, GetValidAccessTokenFrom env tokenString true now = some (some token, none)
      ∧ token.Claims = jwt.Claims.access seg.Claims := by
  have hp := jwt.ParseWithClaims_signed env.codec.decodeAccess jwt.Claims.access
    env.codec.Verify tokenString env.SECRET now seg hdec halg hsig
  unfold GetValidAccessTokenFrom
  rw [hp]
  cases hv : jwt.Validate (jwt.Claims.access seg.Claims) now with
  | none => exact ⟨_, rfl, rfl⟩
  | some err =>
    have hexp : jwt.Is err jwt.Sentinel.ErrTokenExpired = true := by
      unfold jwt.Validate at hv
      simp only [jwt.Claims.GetExpirationTime] at hv
      split at hv
      · simp_all
      · simp_all
      · split at hv
        · simp at hv
        · simp only [Option.some.injEq] at hv
          subst hv
          decide
    simp [hexp]

/-- C3. A refresh request whose access token decodes, names HS256, verifies under the secret
and expires strictly after the clock read of the expiry check is refused, whatever its
refresh token, with the authentication error "Cannot generate new access token until
current one expires"; and whenever a token is returned, it is the one the access token
validation returned with the expiry bypass on, it is expired, and there is no error. -/
theorem unexpired_access_token_cannot_refresh (env : TokenEnv) (r : dto.RefreshRequest)
    (nowParse nowCheck : Int) :
    (∀ seg exp, env.codec.decodeAccess r.AccessToken = some seg →
      seg.Alg = jwt.SigningMethodHS256 →
      env.codec.Verify jwt.SigningMethodHS256 seg.SigningInput seg.Signature env.SECRET = true →
      seg.Claims.ExpiresAt = some exp → nowCheck < exp →
      ∀ refreshToken : String,
        dto.RefreshRequest.ValidateAccessToken env
            { AccessToken := r.AccessToken, RefreshToken := refreshToken } nowParse nowCheck
          = some (none, some (NewAuthenticationError
              "Cannot generate new access token until current one expires")))
    ∧ (∀ token err, r.ValidateAccessToken env nowParse nowCheck = some (some token, err) →
        err = none
        ∧ GetValidAccessTokenFrom env r.AccessToken true nowParse = some (some token, none)
        ∧ dto.isExpired token nowCheck = some (true, none)) := by
  constructor
  · intro seg exp hdec halg hsig hexp hlt refreshToken
    obtain ⟨token, hget, hclaims⟩ :=
      GetValidAccessTokenFrom_allowExpired env r.AccessToken nowParse seg hdec halg hsig
    have hie : dto.isExpired token nowCheck = some (false, none) := by
      simp [dto.isExpired, hclaims, jwt.Claims.GetExpirationTime, hexp, hlt]
    simp [dto.RefreshRequest.ValidateAccessToken, hget, hie]
  · intro token err h
    unfold dto.RefreshRequest.ValidateAccessToken at h
    split at h
    · simp at h
    · simp at h
    · simp at h
    · rename_i validated hget
      split at h
      · simp at h
      · simp at h
      · rename_i expired hie
        cases expired with
        | false => simp at h
        | true =>
          simp only [Bool.not_true, Bool.false_eq_true, if_false, Option.some.injEq,
            Prod.mk.injEq] at h
          obtain ⟨h1, h2⟩ := h
          subst h1
          exact ⟨h2.symm, hget, hie⟩

/-- The refusal of C3 on the sample token before its expiry, and the acceptance of the
same token once expired. -/
theorem unexpired_access_token_cannot_refresh_witness :
    dto.RefreshRequest.ValidateAccessToken sample.env
        { AccessToken := "hs256.alice.good", RefreshToken := "anything" } 50 51
      = some (none, some (NewAuthenticationError
          "Cannot generate new access token until current one expires"))
    ∧ GetValidAccessTokenFrom sample.env "hs256.alice.good" true 100
        = some (some ⟨"hs256.alice.good", "HS256", jwt.Claims.access sample.aliceClaims,
            "k1|hs256.alice", false⟩, none) :=
  ⟨(unexpired_access_token_cannot_refresh sample.env ⟨"hs256.alice.good", ""⟩ 50 51).1
      ⟨"HS256", sample.aliceClaims, "hs256.alice", "k1|hs256.alice"⟩ 100
      (by decide) (by decide) (by decide) (by decide) (by decide) "anything",
   ((unexpired_access_token_cannot_refresh sample.env ⟨"hs256.alice.good", ""⟩ 100 101).2
      ⟨"hs256.alice.good", "HS256", jwt.Claims.access sample.aliceClaims,
        "k1|hs256.alice", false⟩ none (by decide)).2.1⟩

/-- C10. For a token whose claims carry the expiry instant `exp`, both expiry checks return
`(true, nil)` exactly when `exp` is at or before `now` and `(false, nil)` exactly when `exp`
is strictly after `now`; and the two implementations agree on every token and instant. -/
theorem expiry_boundary (token : jwt.Token) (now exp : Int)
    (h : token.Claims.GetExpirationTime = (some exp, none)) :
    ((IsExpired token now = some (true, none) ↔ exp ≤ now)
      ∧ (IsExpired token now = some (false, none) ↔ now < exp))
    ∧ ((dto.isExpired token now = some (true, none) ↔ exp ≤ now)
      ∧ (dto.isExpired token now = some (false, none) ↔ now < exp))
    ∧ ∀ (t : jwt.Token) (n : Int), IsExpired t n = dto.isExpired t n := by
  refine ⟨?_, ?_, fun t n => rfl⟩
  · unfold IsExpired
    rw [h]
    by_cases hlt : now < exp
    · simp [hlt, not_le.mpr hlt]
    · simp [hlt, not_lt.mp hlt]
  · unfold dto.isExpired
    rw [h]
    by_cases hlt : now < exp
    · simp [hlt, not_le.mpr hlt]
    · simp [hlt, not_lt.mp hlt]

/-- The boundary of C10 on a token expiring at instant 100, read at instant 100. -/
theorem expiry_boundary_witness :
    ((IsExpired ⟨"", "HS256", jwt.Claims.access sample.aliceClaims, "", true⟩ 100
          = some (true, none) ↔ (100 : Int) ≤ 100)
      ∧ (IsExpired ⟨"", "HS256", jwt.Claims.access sample.aliceClaims, "", true⟩ 100
          = some (false, none) ↔ (100 : Int) < 100))
    ∧ ((dto.isExpired ⟨"", "HS256", jwt.Claims.access sample.aliceClaims, "", true⟩ 100
          = some (true, none) ↔ (100 : Int) ≤ 100)
      ∧ (dto.isExpired ⟨"", "HS256", jwt.Claims.access sample.aliceClaims, "", true⟩ 100
          = some (false, none) ↔ (100 : Int) < 100))
    ∧ ∀ (t : jwt.Token) (n : Int), IsExpired t n = dto.isExpired t n :=
  expiry_boundary ⟨"", "HS256", jwt.Claims.access sample.aliceClaims, "", true⟩ 100 100
    (by decide)

end tokens

section repository

open errs domain

/-- After the delete statement has run on a working connection no row holds the token. -/
theorem AuthRepositoryDb.count_after_deleteRows (d : AuthRepositoryDb) (token : String) :
    (d.deleteRows token).2.refresh_token_store.count token = 0 := by
  simp [AuthRepositoryDb.deleteRows, List.count_eq_zero, List.mem_filter]

/-- C4. On a working connection `DeleteRefreshTokenFromStore` returns no error exactly when
the delete statement affected one row, the affected rows being the stored copies of the
token, and returns the unexpected error "Failed to log out" when it affected none or more
than one; and on any connection two consecutive calls with the same token never both
succeed. -/
theorem logout_deletes_exactly_one (d : AuthRepositoryDb) (token : String) :
    (d.failing = false → d.rowsAffectedFailing = false →
      (d.deleteRows token).1 = d.refresh_token_store.count token
      ∧ ((d.DeleteRefreshTokenFromStore token).1 = none ↔ (d.deleteRows token).1 = 1)
      ∧ ((d.deleteRows token).1 ≠ 1 →
          (d.DeleteRefreshTokenFromStore token).1
            = some (NewUnexpectedError "Failed to log out")))
    ∧ ¬ ((d.DeleteRefreshTokenFromStore token).1 = none
        ∧ ((d.DeleteRefreshTokenFromStore token).2.DeleteRefreshTokenFromStore token).1
            = none) := by
  constructor
  · intro hf hr
    refine ⟨rfl, ?_, ?_⟩
    · by_cases hc : (d.deleteRows token).1 = 1
      · simp [AuthRepositoryDb.DeleteRefreshTokenFromStore, AuthRepositoryDb.ExecDelete,
          hf, hr, hc]
      · simp [AuthRepositoryDb.DeleteRefreshTokenFromStore, AuthRepositoryDb.ExecDelete,
          hf, hr, hc]
    · intro hc
      simp [AuthRepositoryDb.DeleteRefreshTokenFromStore, AuthRepositoryDb.ExecDelete,
        hf, hr, hc]
  · rintro ⟨h1, h2⟩
    cases hf : d.failing with
    | true =>
      simp [AuthRepositoryDb.DeleteRefreshTokenFromStore, AuthRepositoryDb.ExecDelete, hf]
        at h1
    | false =>
      cases hr : d.rowsAffectedFailing with
      | true =>
        simp [AuthRepositoryDb.DeleteRefreshTokenFromStore, AuthRepositoryDb.ExecDelete,
          hf, hr] at h1
      | false =>
        have hstate : (d.DeleteRefreshTokenFromStore token).2 = (d.deleteRows token).2 := by
          simp only [AuthRepositoryDb.DeleteRefreshTokenFromStore,
            AuthRepositoryDb.ExecDelete, hf, hr, Bool.false_eq_true, if_false]
          split <;> rfl
        rw [hstate] at h2
        have hzero := AuthRepositoryDb.count_after_deleteRows d token
        have hf2 : (d.deleteRows token).2.failing = false := hf
        have hr2 : (d.deleteRows token).2.rowsAffectedFailing = false := hr
        have hrows : ((d.deleteRows token).2.deleteRows token).1 = 0 := hzero
        simp [AuthRepositoryDb.DeleteRefreshTokenFromStore, AuthRepositoryDb.ExecDelete,
          hf2, hr2, hrows] at h2

/-- The behaviour of C4 on the sample database: the first logout with the stored token
succeeds, the second one fails. -/
theorem logout_deletes_exactly_one_witness :
    ((sample.db.deleteRows "r1").1 = sample.db.refresh_token_store.count "r1"
      ∧ ((sample.db.DeleteRefreshTokenFromStore "r1").1 = none
          ↔ (sample.db.deleteRows "r1").1 = 1)
      ∧ ((sample.db.deleteRows "r1").1 ≠ 1 →
          (sample.db.DeleteRefreshTokenFromStore "r1").1
            = some (NewUnexpectedError "Failed to log out")))
    ∧ (sample.db.DeleteRefreshTokenFromStore "r1").1 = none
    ∧ ((sample.db.DeleteRefreshTokenFromStore "r1").2.DeleteRefreshTokenFromStore "r1").1
        = some (NewUnexpectedError "Failed to log out") :=
  ⟨(logout_deletes_exactly_one sample.db "r1").1 (by decide) (by decide),
    by decide, by decide⟩

/-- C5, as stated, fails on the sample database: no user row matches username `mallory`,
and the error `FindUser` returns is not of the authorization kind. -/
theorem FindUser_error_is_not_authorization :
    sample.db.users.filter (userMatches "mallory" "user" "2000") = []
    ∧ sample.db.FindUser "mallory" "user" "2000"
        = some (NewAuthenticationError "Cannot continue")
    ∧ ¬ IsAuthorizationError (NewAuthenticationError "Cannot continue") := by
  decide

/-- C5, amended. On a working connection, when no user row matches the username, role and
customer id, `FindUser` returns the authentication error "Cannot continue", and returns
the same error for any other unmatched lookup, be the username absent or present with
another role or customer id; and when no account row joins the account to the customer,
`IsAccountUnderCustomer` returns an error of the authorization kind. -/
theorem unmatched_lookup_errors (d d2 : AuthRepositoryDb)
    (un role cid un2 role2 cid2 : String)
    (hd : d.failing = false) (hd2 : d2.failing = false)
    (hno : ∀ u ∈ d.users, userMatches un role cid u = false)
    (hno2 : ∀ u ∈ d2.users, userMatches un2 role2 cid2 u = false) :
    (d.FindUser un role cid = some (NewAuthenticationError "Cannot continue")
      ∧ IsAuthenticationError (NewAuthenticationError "Cannot continue")
      ∧ d.FindUser un role cid = d2.FindUser un2 role2 cid2)
    ∧ ∀ aid acid : String,
        (∀ a ∈ d.accounts, ¬ (a.customer_id = acid ∧ a.account_id = aid)) →
        d.IsAccountUnderCustomer aid acid
            = some (NewAuthorizationError "Account does not belong to customer")
          ∧ IsAuthorizationError (NewAuthorizationError "Account does not belong to customer") := by
  have key : ∀ (e : AuthRepositoryDb) (a b c : String), e.failing = false →
      (∀ u ∈ e.users, userMatches a b c u = false) →
      e.FindUser a b c = some (NewAuthenticationError "Cannot continue") := by
    intro e a b c he hn
    have hnil : e.users.filter (userMatches a b c) = [] := by
      rw [List.filter_eq_nil_iff]
      intro u hu
      simp [hn u hu]
    simp [AuthRepositoryDb.FindUser, AuthRepositoryDb.GetExists, AuthRepositoryDb.Get,
      he, hnil]
  refine ⟨⟨key d un role cid hd hno, rfl, ?_⟩, ?_⟩
  · rw [key d un role cid hd hno, key d2 un2 role2 cid2 hd2 hno2]
  · intro aid acid hacc
    have hnil : d.accounts.filter
        (fun a => a.customer_id == acid && a.account_id == aid) = [] := by
      rw [List.filter_eq_nil_iff]
      intro a ha
      simpa using hacc a ha
    refine ⟨?_, rfl⟩
    simp [AuthRepositoryDb.IsAccountUnderCustomer, AuthRepositoryDb.Get, hd, hnil]

/-- The amended C5 on the sample database: an absent username and a present username with
another role get the same authentication error, and an account of nobody is refused with
an authorization error. -/
theorem unmatched_lookup_errors_witness :
    (sample.db.FindUser "mallory" "user" "2000"
        = some (NewAuthenticationError "Cannot continue")
      ∧ IsAuthenticationError (NewAuthenticationError "Cannot continue")
      ∧ sample.db.FindUser "mallory" "user" "2000" = sample.db.FindUser "alice" "admin" "2000")
    ∧ sample.db.IsAccountUnderCustomer "11111" "2000"
        = some (NewAuthorizationError "Account does not belong to customer") :=
  ⟨(unmatched_lookup_errors sample.db sample.db "mallory" "user" "2000" "alice" "admin" "2000"
      (by decide) (by decide) (by decide) (by decide)).1,
   ((unmatched_lookup_errors sample.db sample.db "mallory" "user" "2000" "alice" "admin" "2000"
      (by decide) (by decide) (by decide) (by decide)).2 "11111" "2000" (by decide)).1⟩

/-- C9. On working connections, a call of `Authenticate` with a username that has no user
row and a call with a username whose row holds a hash the password does not match return
identical results: no credential record and the authentication error "Incorrect username
or password", with status 401. -/
theorem authenticate_failures_indistinguishable (d1 d2 : AuthRepositoryDb)
    (IsHashGivenPassword : String → String → Bool) (un1 pw1 un2 pw2 : String) (auth : Auth)
    (h1 : d1.failing = false) (h2 : d2.failing = false)
    (hmissing : ∀ u ∈ d1.users, u.Username ≠ un1)
    (hrow : (d2.users.filter (fun u => u.Username == un2)).head? = some auth)
    (hbad : IsHashGivenPassword auth.HashedPassword pw2 = false) :
    d1.Authenticate IsHashGivenPassword un1 pw1 = d2.Authenticate IsHashGivenPassword un2 pw2
    ∧ d1.Authenticate IsHashGivenPassword un1 pw1
        = (none, some (NewAuthenticationError "Incorrect username or password"))
    ∧ (NewAuthenticationError "Incorrect username or password").Code = 401
    ∧ (NewAuthenticationError "Incorrect username or password").Message
        = "Incorrect username or password" := by
  have hnil : d1.users.filter (fun u => u.Username == un1) = [] := by
    rw [List.filter_eq_nil_iff]
    intro u hu
    simpa using hmissing u hu
  have hA : d1.Authenticate IsHashGivenPassword un1 pw1
      = (none, some (NewAuthenticationError "Incorrect username or password")) := by
    simp [AuthRepositoryDb.Authenticate, AuthRepositoryDb.Get, h1, hnil]
  have hB : d2.Authenticate IsHashGivenPassword un2 pw2
      = (none, some (NewAuthenticationError "Incorrect username or password")) := by
    cases hl : d2.users.filter (fun u => u.Username == un2) with
    | nil => simp [hl] at hrow
    | cons row rest =>
      rw [hl] at hrow
      simp only [List.head?_cons, Option.some.injEq] at hrow
      subst hrow
      simp [AuthRepositoryDb.Authenticate, AuthRepositoryDb.Get, h2, hl, hbad]
  exact ⟨hA.trans hB.symm, hA, rfl, rfl⟩

/-- The equality of C9 on the sample database: user `mallory` does not exist, user `alice`
exists and the password is wrong. -/
theorem authenticate_failures_indistinguishable_witness :
    sample.db.Authenticate sample.IsHashGivenPassword "mallory" "pw1"
      = sample.db.Authenticate sample.IsHashGivenPassword "alice" "guess"
    ∧ sample.db.Authenticate sample.IsHashGivenPassword "mallory" "pw1"
        = (none, some (NewAuthenticationError "Incorrect username or password"))
    ∧ (NewAuthenticationError "Incorrect username or password").Code = 401
    ∧ (NewAuthenticationError "Incorrect username or password").Message
        = "Incorrect username or password" :=
  authenticate_failures_indistinguishable sample.db sample.db sample.IsHashGivenPassword
    "mallory" "pw1" "alice" "guess" ⟨"alice", "h(pw1)", "user", some "2000"⟩
    (by decide) (by decide) (by decide) (by decide) (by decide)

end repository

section registration

open errs domain service

/-- C6, as stated, fails on the in-memory ports when the final update fails: the call
returns an error, yet a customer has been provisioned and stays, while the registration
is still unconfirmed. -/
theorem FinishRegistration_half_applied :
    ((sample.svc ⟨false, true⟩).FinishRegistration sample.externals "ott-a@x.com"
        "2024-01-02 08:00:00" sample.pendingStore).1
      = some (NewUnexpectedError "Unexpected database error")
    ∧ sample.pendingStore.customers = []
    ∧ ((sample.svc ⟨false, true⟩).FinishRegistration sample.externals "ott-a@x.com"
        "2024-01-02 08:00:00" sample.pendingStore).2.customers = ["c-alice"]
    ∧ ((sample.svc ⟨false, true⟩).FinishRegistration sample.externals "ott-a@x.com"
        "2024-01-02 08:00:00" sample.pendingStore).2.registrations
      = sample.pendingStore.registrations
    ∧ ((sample.svc ⟨false, true⟩).FinishRegistration sample.externals "ott-a@x.com"
        "2024-01-02 08:00:00" sample.pendingStore).2.calls
      = ["FindFromEmail", "CreateNecessaryAccounts", "Update"] := by
  decide

/-- C6, amended. When `FinishRegistration` returns an error, the error is that of the first
failing step among the token validation, `FindFromEmail`, `CreateNecessaryAccounts` and
`Update`, and the store is the one that step left: no later step ran, so `Update` never
succeeded, and `CreateNecessaryAccounts` returned a customer id only when the failing
step is `Update`. -/
theorem finish_registration_stops_at_first_failure {σ ρ : Type} (x : Externals ρ)
    (s : DefaultRegistrationService σ) (tokenString createTime : String) (w : σ)
    (err : AppError)
    (h : (s.FinishRegistration x tokenString createTime w).1 = some err) :
    (x.ValidateOneTimeToken tokenString false = .error err
      ∧ (s.FinishRegistration x tokenString createTime w).2 = w)
    ∨ (∃ claims w1, x.ValidateOneTimeToken tokenString false = .ok claims
      ∧ s.registrationRepo.FindFromEmail claims.Email w = (.error err, w1)
      ∧ (s.FinishRegistration x tokenString createTime w).2 = w1)
    ∨ (∃ claims registration w1 w2, x.ValidateOneTimeToken tokenString false = .ok claims
      ∧ s.registrationRepo.FindFromEmail claims.Email w = (.ok registration, w1)
      ∧ s.registrationRepo.CreateNecessaryAccounts registration createTime w1
          = (.error err, w2)
      ∧ (s.FinishRegistration x tokenString createTime w).2 = w2)
    ∨ (∃ claims registration w1 customerId w2 w3,
      x.ValidateOneTimeToken tokenString false = .ok claims
      ∧ s.registrationRepo.FindFromEmail claims.Email w = (.ok registration, w1)
      ∧ s.registrationRepo.CreateNecessaryAccounts registration createTime w1
          = (.ok customerId, w2)
      ∧ s.registrationRepo.Update (registration.Confirm customerId createTime) w2
          = (some err, w3)
      ∧ (s.FinishRegistration x tokenString createTime w).2 = w3) := by
  cases hv : x.ValidateOneTimeToken tokenString false with
  | error e =>
    have hr : s.FinishRegistration x tokenString createTime w = (some e, w) := by
      simp [DefaultRegistrationService.FinishRegistration, hv]
    rw [hr] at h ⊢
    simp only [Option.some.injEq] at h
    subst h
    exact Or.inl ⟨rfl, rfl⟩
  | ok claims =>
    rcases hf : s.registrationRepo.FindFromEmail claims.Email w with ⟨rf, w1⟩
    cases rf with
    | error e =>
      have hr : s.FinishRegistration x tokenString createTime w = (some e, w1) := by
        simp [DefaultRegistrationService.FinishRegistration, hv, hf]
      rw [hr] at h ⊢
      simp only [Option.some.injEq] at h
      subst h
      exact Or.inr (Or.inl ⟨claims, w1, rfl, hf, rfl⟩)
    | ok registration =>
      rcases hc : s.registrationRepo.CreateNecessaryAccounts registration createTime w1
        with ⟨rc, w2⟩
      cases rc with
      | error e =>
        have hr : s.FinishRegistration x tokenString createTime w = (some e, w2) := by
          simp [DefaultRegistrationService.FinishRegistration, hv, hf, hc]
        rw [hr] at h ⊢
        simp only [Option.some.injEq] at h
        subst h
        exact Or.inr (Or.inr (Or.inl ⟨claims, registration, w1, w2, rfl, hf, hc, rfl⟩))
      | ok customerId =>
        rcases hu : s.registrationRepo.Update (registration.Confirm customerId createTime) w2
          with ⟨ru, w3⟩
        cases ru with
        | none =>
          have hr : s.FinishRegistration x tokenString createTime w = (none, w3) := by
            simp [DefaultRegistrationService.FinishRegistration, hv, hf, hc, hu]
          rw [hr] at h
          simp at h
        | some e =>
          have hr : s.FinishRegistration x tokenString createTime w = (some e, w3) := by
            simp [DefaultRegistrationService.FinishRegistration, hv, hf, hc, hu]
          rw [hr] at h ⊢
          simp only [Option.some.injEq] at h
          subst h
          exact Or.inr (Or.inr (Or.inr
            ⟨claims, registration, w1, customerId, w2, w3, rfl, hf, hc, hu, rfl⟩))

/-- The amended C6 on the in-memory ports with a failing update: the call returns the error
of one of the four steps and the store is the one that step left. -/
theorem finish_registration_stops_at_first_failure_witness :
    ((sample.svc ⟨false, true⟩).FinishRegistration sample.externals "ott-a@x.com"
        "2024-01-02 08:00:00" sample.pendingStore).1
      = some (NewUnexpectedError "Unexpected database error")
    ∧ ((sample.externals.ValidateOneTimeToken "ott-a@x.com" false
          = .error (NewUnexpectedError "Unexpected database error")
        ∧ ((sample.svc ⟨false, true⟩).FinishRegistration sample.externals "ott-a@x.com"
            "2024-01-02 08:00:00" sample.pendingStore).2 = sample.pendingStore)
      ∨ (∃ claims w1, sample.externals.ValidateOneTimeToken "ott-a@x.com" false = .ok claims
        ∧ (sample.svc ⟨false, true⟩).registrationRepo.FindFromEmail claims.Email
            sample.pendingStore
          = (.error (NewUnexpectedError "Unexpected database error"), w1)
        ∧ ((sample.svc ⟨false, true⟩).FinishRegistration sample.externals "ott-a@x.com"
            "2024-01-02 08:00:00" sample.pendingStore).2 = w1)
      ∨ (∃ claims registration w1 w2,
        sample.externals.ValidateOneTimeToken "ott-a@x.com" false = .ok claims
        ∧ (sample.svc ⟨false, true⟩).registrationRepo.FindFromEmail claims.Email
            sample.pendingStore = (.ok registration, w1)
        ∧ (sample.svc ⟨false, true⟩).registrationRepo.CreateNecessaryAccounts registration
            "2024-01-02 08:00:00" w1
          = (.error (NewUnexpectedError "Unexpected database error"), w2)
        ∧ ((sample.svc ⟨false, true⟩).FinishRegistration sample.externals "ott-a@x.com"
            "2024-01-02 08:00:00" sample.pendingStore).2 = w2)
      ∨ (∃ claims registration w1 customerId w2 w3,
        sample.externals.ValidateOneTimeToken "ott-a@x.com" false = .ok claims
        ∧ (sample.svc ⟨false, true⟩).registrationRepo.FindFromEmail claims.Email
            sample.pendingStore = (.ok registration, w1)
        ∧ (sample.svc ⟨false, true⟩).registrationRepo.CreateNecessaryAccounts registration
            "2024-01-02 08:00:00" w1 = (.ok customerId, w2)
        ∧ (sample.svc ⟨false, true⟩).registrationRepo.Update
            (registration.Confirm customerId "2024-01-02 08:00:00") w2
          = (some (NewUnexpectedError "Unexpected database error"), w3)
        ∧ ((sample.svc ⟨false, true⟩).FinishRegistration sample.externals "ott-a@x.com"
            "2024-01-02 08:00:00" sample.pendingStore).2 = w3)) :=
  ⟨by decide,
   finish_registration_stops_at_first_failure sample.externals (sample.svc ⟨false, true⟩)
     "ott-a@x.com" "2024-01-02 08:00:00" sample.pendingStore
     (NewUnexpectedError "Unexpected database error") (by decide)⟩

/-- C7. `Register` runs `IsEmailUsed` on the store it is given and, when that check passes,
`IsUsernameTaken` on the store the first check left. When a check returns an error,
`Register` returns that error with no response and the store is the one that check left:
nothing ran after it, neither `IsUsernameTaken` after a failing `IsEmailUsed`, nor `Save`,
`SendConfirmationEmail` or `UpdateLastEmailedInfo`; if the failing check is a read, the
store is unchanged. -/
theorem register_checks_short_circuit {σ ρ : Type} (x : Externals ρ)
    (s : DefaultRegistrationService σ) (request : dto.RegistrationRequest) (w : σ) :
    (∀ appErr w1,
      s.registrationRepo.IsEmailUsed (x.NewRegistration request).Email w = (some appErr, w1) →
      s.Register x request w = ((none, some appErr), w1)
      ∧ (w1 = w → (s.Register x request w).2 = w))
    ∧ (∀ appErr w1 w2,
      s.registrationRepo.IsEmailUsed (x.NewRegistration request).Email w = (none, w1) →
      s.registrationRepo.IsUsernameTaken (x.NewRegistration request).Username w1
        = (some appErr, w2) →
      s.Register x request w = ((none, some appErr), w2)
      ∧ (w1 = w → w2 = w1 → (s.Register x request w).2 = w)) := by
  constructor
  · intro appErr w1 h1
    have hr : s.Register x request w = ((none, some appErr), w1) := by
      simp [DefaultRegistrationService.Register, h1]
    exact ⟨hr, fun hw => by rw [hr, ← hw]⟩
  · intro appErr w1 w2 h1 h2
    have hr : s.Register x request w = ((none, some appErr), w2) := by
      simp [DefaultRegistrationService.Register, h1, h2]
    exact ⟨hr, fun hw hw2 => by rw [hr, hw2, hw]⟩

/-- C7 on the in-memory ports, whose store records the operations that ran: with the email
of `alice` already registered only `IsEmailUsed` runs; with her username already taken
only the two checks run, in that order. -/
theorem register_checks_short_circuit_witness :
    ((sample.svc ⟨false, false⟩).Register sample.externals sample.aliceRequest
        sample.pendingStore
      = ((none, some ⟨409, "Email is already used"⟩), sample.pendingStore.ran "IsEmailUsed"))
    ∧ ((sample.svc ⟨false, false⟩).Register sample.externals sample.aliceRequest
        sample.takenStore
      = ((none, some ⟨409, "Username is already taken"⟩),
         (sample.takenStore.ran "IsEmailUsed").ran "IsUsernameTaken")) :=
  ⟨((register_checks_short_circuit sample.externals (sample.svc ⟨false, false⟩)
      sample.aliceRequest sample.pendingStore).1 ⟨409, "Email is already used"⟩
      (sample.pendingStore.ran "IsEmailUsed") (by decide)).1,
   ((register_checks_short_circuit sample.externals (sample.svc ⟨false, false⟩)
      sample.aliceRequest sample.takenStore).2 ⟨409, "Username is already taken"⟩
      (sample.takenStore.ran "IsEmailUsed")
      ((sample.takenStore.ran "IsEmailUsed").ran "IsUsernameTaken")
      (by decide) (by decide)).1⟩

/-- C8. For a request that passes both checks and is saved: when the one-time token is
generated and `SendConfirmationEmail` fails, `Register` returns that error with no
response and the store is the one the sender left, so nothing ran after the send, neither
a delete of the saved record nor `UpdateLastEmailedInfo`; when the send succeeds,
`UpdateLastEmailedInfo` runs next, on the store the sender left, with the same registration
and exactly the time the sender returned; and when the token cannot be generated nothing
runs after `Save`. -/
theorem register_send_failure_keeps_record {σ ρ : Type} (x : Externals ρ)
    (s : DefaultRegistrationService σ) (request : dto.RegistrationRequest) (w w1 w2 w3 : σ)
    (hEmail : s.registrationRepo.IsEmailUsed (x.NewRegistration request).Email w = (none, w1))
    (hUser : s.registrationRepo.IsUsernameTaken (x.NewRegistration request).Username w1
      = (none, w2))
    (hSave : s.registrationRepo.Save (x.NewRegistration request) w2 = (none, w3)) :
    (∀ ott err w4, x.GenerateOneTimeToken (x.NewRegistration request) = .ok ott →
      s.emailRepo.SendConfirmationEmail (x.NewRegistration request).Email
        (buildConfirmationURL x ott) w3 = (.error err, w4) →
      s.Register x request w = ((none, some err), w4))
    ∧ (∀ ott timeEmailed w4, x.GenerateOneTimeToken (x.NewRegistration request) = .ok ott →
      s.emailRepo.SendConfirmationEmail (x.NewRegistration request).Email
        (buildConfirmationURL x ott) w3 = (.ok timeEmailed, w4) →
      s.createAndSendLink x (x.NewRegistration request) w3
        = s.registrationRepo.UpdateLastEmailedInfo (x.NewRegistration request) timeEmailed w4
      ∧ (s.Register x request w).2
        = (s.registrationRepo.UpdateLastEmailedInfo (x.NewRegistration request)
            timeEmailed w4).2
      ∧ (s.Register x request w).1.2
        = (s.registrationRepo.UpdateLastEmailedInfo (x.NewRegistration request)
            timeEmailed w4).1)
    ∧ (∀ err, x.GenerateOneTimeToken (x.NewRegistration request) = .error err →
      s.Register x request w = ((none, some err), w3)) := by
  refine ⟨?_, ?_, ?_⟩
  · intro ott err w4 hTok hSend
    simp [DefaultRegistrationService.Register, DefaultRegistrationService.createAndSendLink,
      hEmail, hUser, hSave, hTok, hSend]
  · intro ott timeEmailed w4 hTok hSend
    have hLink : s.createAndSendLink x (x.NewRegistration request) w3
        = s.registrationRepo.UpdateLastEmailedInfo (x.NewRegistration request)
            timeEmailed w4 := by
      simp only [DefaultRegistrationService.createAndSendLink, hTok, hSend]
      rcases s.registrationRepo.UpdateLastEmailedInfo (x.NewRegistration request)
        timeEmailed w4 with ⟨r, w5⟩
      cases r <;> rfl
    refine ⟨hLink, ?_, ?_⟩
    · simp only [DefaultRegistrationService.Register, hEmail, hUser, hSave, hLink]
      rcases s.registrationRepo.UpdateLastEmailedInfo (x.NewRegistration request)
        timeEmailed w4 with ⟨r, w5⟩
      cases r <;> rfl
    · simp only [DefaultRegistrationService.Register, hEmail, hUser, hSave, hLink]
      rcases s.registrationRepo.UpdateLastEmailedInfo (x.NewRegistration request)
        timeEmailed w4 with ⟨r, w5⟩
      cases r <;> rfl
  · intro err hTok
    simp [DefaultRegistrationService.Register, DefaultRegistrationService.createAndSendLink,
      hEmail, hUser, hSave, hTok]

/-- C8 on the in-memory ports with a failing sender: `Register` returns the sender's error,
the saved record is still in the store without a last-emailed time, and the operations
that ran are the two checks, `Save` and the send. -/
theorem register_send_failure_keeps_record_witness :
    (sample.svc ⟨true, false⟩).Register sample.externals sample.aliceRequest sample.emptyStore
      = ((none, some (NewUnexpectedError "Unexpected email error")),
         { registrations := [sample.externals.NewRegistration sample.aliceRequest],
           users := [], customers := [], outbox := [],
           calls := ["IsEmailUsed", "IsUsernameTaken", "Save", "SendConfirmationEmail"] }) :=
  (register_send_failure_keeps_record sample.externals (sample.svc ⟨true, false⟩)
    sample.aliceRequest sample.emptyStore (sample.emptyStore.ran "IsEmailUsed")
    ((sample.emptyStore.ran "IsEmailUsed").ran "IsUsernameTaken") sample.savedStore
    (by decide) (by decide) (by decide)).1
    "ott-a@x.com" (NewUnexpectedError "Unexpected email error")
    (sample.savedStore.ran "SendConfirmationEmail") rfl rfl

end registration
